import Mathlib

/-!
Verification of the chronic-disease-care-planner backend.

The Python backend (src/backend) is shallowly embedded here:
Python floats are modelled as rationals (all spec-relevant constants are
exact decimals), Python dicts become Lean structures, and database-backed
functions become pure functions of the log values and weekly statistics
that the database layer would supply.  `round(x, n)` is modelled as
decimal round-half-to-even and `int(x)` as truncation toward zero.
-/

-- The library marks rational arithmetic irreducible for elaboration
-- performance; concrete-input theorems here evaluate it by `decide`, so
-- restore the default transparency (soundness is untouched: the kernel
-- never consults reducibility attributes).
set_option allowUnsafeReducibility true
attribute [local semireducible] Rat.add Rat.mul Rat.div Rat.sub Rat.neg
  Rat.inv Rat.ofScientific

/-- Floor of a rational as an integer (denominators are positive, so
`Int.fdiv` is floor division). -/
def ratFloor (q : ℚ) : ℤ := q.num.fdiv q.den

/-- Round-half-to-even to an integer, the rounding used by Python `round`. -/
def roundHalfEven (q : ℚ) : ℤ :=
  let f : ℤ := ratFloor q
  let r : ℚ := q - (f : ℚ)
  if r < 1/2 then f
  else if 1/2 < r then f + 1
  else if f % 2 = 0 then f else f + 1

/-- Python `round(x, 0)` (result kept rational, as Python keeps a float). -/
def pyRound0 (q : ℚ) : ℚ := (roundHalfEven q : ℚ)

/-- Python `round(x, 1)`. -/
def pyRound1 (q : ℚ) : ℚ := (roundHalfEven (10 * q) : ℚ) / 10

/-- Python `int(x)`: truncation toward zero. -/
def pyInt (q : ℚ) : ℤ := if q < 0 then -(ratFloor (-q)) else ratFloor q

/-- Does `sub` occur as a contiguous run inside `l`? -/
def infixOfAux (sub : List Char) : List Char → Bool
  | [] => sub.isPrefixOf []
  | c :: rest => sub.isPrefixOf (c :: rest) || infixOfAux sub rest

/-- Python `sub in s` substring containment test. -/
def containsSub (s sub : String) : Bool := infixOfAux sub.data s.data

/-- Python `str.lower()` (structural over the character list, so that
proofs can evaluate it). -/
def pyLower (s : String) : String := ⟨s.data.map Char.toLower⟩

/-- Python `str.strip()` with no argument: trim whitespace at both ends. -/
def pyTrim (s : String) : String :=
  ⟨((s.data.dropWhile Char.isWhitespace).reverse.dropWhile
      Char.isWhitespace).reverse⟩

/-- Splits on whitespace runs, dropping empty pieces; `acc` holds the
current word reversed. -/
def wordsAux : List Char → List Char → List String
  | [], acc => if acc.isEmpty then [] else [⟨acc.reverse⟩]
  | c :: rest, acc =>
    if c.isWhitespace then
      if acc.isEmpty then wordsAux rest []
      else ⟨acc.reverse⟩ :: wordsAux rest []
    else wordsAux rest (c :: acc)

/-- Python `str.split()`: split on whitespace, dropping empty pieces. -/
def pyWords (s : String) : List String := wordsAux s.data []

/-- Characters stripped by `word.strip(",.!?")` in `analyze_food`. -/
def isPunctChar (c : Char) : Bool := c = ',' ∨ c = '.' ∨ c = '!' ∨ c = '?'

/-- Python `word.strip(",.!?")`: drop those characters from both ends. -/
def stripPunct (w : String) : String :=
  ⟨((w.data.dropWhile isPunctChar).reverse.dropWhile isPunctChar).reverse⟩

-- ==================== guidelines.py ====================

/-- Result of `get_glucose_status` (guidelines.py:178-223).  The source
returns a dict; the `action` text is elided as no claim mentions it, and
the unknown-reading-type dict carries no severity key, hence `Option`. -/
structure GlucoseStatusRes where
  status : String
  message : String
  severity : Option String
deriving Repr, DecidableEq

/-- guidelines.py:178-223 `get_glucose_status`: ADA fasting target 80-130,
postprandial max 180, hypoglycemia level-2 threshold 54.  The source has no
`raise` statement: every input, the unknown reading types included, returns
a plain dict. -/
def get_glucose_status (value : ℚ) (reading_type : String) : GlucoseStatusRes :=
  if reading_type = "fasting" then
    if value < 80 then
      ⟨"low", "Below target range (80-130 mg/dL)",
        some (if 54 ≤ value then "warning" else "critical")⟩
    else if 130 < value then
      ⟨"high", "Above target range (80-130 mg/dL)",
        some (if value < 180 then "warning" else "elevated")⟩
    else
      ⟨"normal", "Within target range (80-130 mg/dL)", some "normal"⟩
  else if reading_type = "after_meal" then
    if 180 < value then
      ⟨"high", "Above target (<180 mg/dL)", some "warning"⟩
    else
      ⟨"normal", "Within target (<180 mg/dL)", some "normal"⟩
  else
    ⟨"unknown", "Unknown reading type", none⟩

/-- Result of `get_bp_status` (guidelines.py:226-269); the `description`
and `action` texts looked up from the guideline tables are elided. -/
structure BpStatusRes where
  category : String
  severity : String
deriving Repr, DecidableEq

/-- guidelines.py:226-269 `get_bp_status`: ordered chain, highest severity
first, per the AHA table `HYPERTENSION_GUIDELINES["bp_categories"]`. -/
def get_bp_status (systolic diastolic : ℚ) : BpStatusRes :=
  if 180 ≤ systolic ∨ 120 ≤ diastolic then ⟨"hypertensive_crisis", "critical"⟩
  else if 140 ≤ systolic ∨ 90 ≤ diastolic then ⟨"stage2", "elevated"⟩
  else if 130 ≤ systolic ∨ 80 ≤ diastolic then ⟨"stage1", "warning"⟩
  else if 120 ≤ systolic then ⟨"elevated", "caution"⟩
  else ⟨"normal", "normal"⟩

-- ==================== trend_analyzer.py ====================

/-- trend_analyzer.py:175 `first_half_avg`: mean of the first `len // 2`
values, guarded to 0 when that half is empty. -/
def firstHalfAvg (values : List ℚ) : ℚ :=
  let mid := values.length / 2
  if 0 < mid then (values.take mid).sum / (mid : ℚ) else 0

/-- trend_analyzer.py:176 `second_half_avg`: mean of the values from index
`len // 2` on, guarded to 0 when that part is empty. -/
def secondHalfAvg (values : List ℚ) : ℚ :=
  let mid := values.length / 2
  if 0 < values.length - mid then
    (values.drop mid).sum / ((values.length - mid : ℕ) : ℚ)
  else 0

/-- trend_analyzer.py:168-185 `calculate_trend_direction`: relative
difference of the half means against a 5 percent threshold. -/
def calculate_trend_direction (values : List ℚ) : String :=
  if values.length < 3 then "insufficient_data"
  else
    let f := firstHalfAvg values
    let s := secondHalfAvg values
    let diffPercent := if 0 < f then (s - f) / f * 100 else 0
    if 5 < diffPercent then "increasing"
    else if diffPercent < -5 then "decreasing"
    else "stable"

/-- trend_analyzer.py:188-197 `categorize_bp`, exactly as written in the
source (note the `or` in the stage1 branch and the absence of a
hypertensive-crisis branch). -/
def categorize_bp (systolic diastolic : ℚ) : String :=
  if systolic < 120 ∧ diastolic < 80 then "normal"
  else if systolic < 130 ∧ diastolic < 80 then "elevated"
  else if systolic < 140 ∨ diastolic < 90 then "stage1"
  else "stage2"

/-- Weekly glucose statistics as supplied by `database.get_weekly_stats`
(count of readings and their mean); min/max are elided as unused by the
adjustment generator. -/
structure GlucoseStats where
  count : ℕ
  avg : ℚ
deriving Repr, DecidableEq

/-- Weekly BP statistics from `database.get_weekly_stats`: reading count,
mean systolic (`avg_value`) and mean diastolic (`avg_secondary`). -/
structure BpStats where
  count : ℕ
  avgSystolic : ℚ
  avgDiastolic : ℚ
deriving Repr, DecidableEq

/-- The fields of the `analyze_glucose_trends` result that the weekly
adjustment generator reads (trend_analyzer.py:80-95): `trend_direction`,
`stats.average` (which is `None` — here `none` — when the raw average is
the falsy 0.0, else `round(avg, 1)`), and `in_target_range`. -/
structure GlucoseTrendRes where
  trend : String
  average : Option ℚ
  inTarget : Bool
deriving Repr, DecidableEq

/-- trend_analyzer.py:32-95 `analyze_glucose_trends`, as a pure function of
the 7-day glucose values and weekly stats; `none` models the
`"insufficient_data"` early return (trend_analyzer.py:37-42), textual
insights are elided. -/
def analyze_glucose_trends (values : List ℚ) (stats : GlucoseStats) :
    Option GlucoseTrendRes :=
  if values = [] ∨ stats.count = 0 then none
  else
    some {
      trend := calculate_trend_direction values
      average := if stats.avg ≠ 0 then some (pyRound1 stats.avg) else none
      inTarget := decide (80 ≤ stats.avg ∧ stats.avg ≤ 130) }

/-- The fields of the `analyze_bp_trends` result read by the weekly
adjustment generator (trend_analyzer.py:149-165): the `bp_category` of the
average reading and the systolic trend. -/
structure BpTrendRes where
  category : String
  trend : String
deriving Repr, DecidableEq

/-- trend_analyzer.py:98-165 `analyze_bp_trends` as a pure function of the
7-day systolic values and weekly stats; `none` models the
`"insufficient_data"` early return, textual insights are elided. -/
def analyze_bp_trends (systolicValues : List ℚ) (stats : BpStats) :
    Option BpTrendRes :=
  if systolicValues = [] ∨ stats.count = 0 then none
  else
    some {
      category := categorize_bp stats.avgSystolic stats.avgDiastolic
      trend := calculate_trend_direction systolicValues }

/-- One entry of the `adjustments` list built by
`generate_weekly_adjustments` (trend_analyzer.py:202-248). -/
structure Adjustment where
  type : String
  action : String
  reason : String
deriving Repr, DecidableEq

/-- trend_analyzer.py:211-215. -/
def vegAdjustment : Adjustment :=
  ⟨"diet", "Add an extra vegetable serving to lunch and dinner",
    "High average glucose levels detected"⟩

/-- trend_analyzer.py:216-220. -/
def walkAdjustment : Adjustment :=
  ⟨"activity", "Increase walking duration by 10 minutes",
    "Physical activity helps regulate blood sugar"⟩

/-- trend_analyzer.py:222-226. -/
def snackAdjustment : Adjustment :=
  ⟨"diet", "Add a small snack between meals",
    "Low average glucose levels detected"⟩

/-- trend_analyzer.py:232-236. -/
def sodiumAdjustment : Adjustment :=
  ⟨"diet", "Reduce sodium to less than 1,500mg daily",
    "Elevated blood pressure detected"⟩

/-- trend_analyzer.py:237-241. -/
def relaxAdjustment : Adjustment :=
  ⟨"wellness", "Add 10-minute evening relaxation session",
    "Stress management helps lower blood pressure"⟩

/-- trend_analyzer.py:202-248 `generate_weekly_adjustments` as a pure
function of the data the database would supply, returning the adjustment
list and the message.  The guards on `glucose_trends["stats"]["average"]`
keep Python truthiness: a `None` or `0.0` average fails them. -/
def generate_weekly_adjustments (diseases : List String)
    (glucoseValues : List ℚ) (glucoseStats : GlucoseStats)
    (bpSystolicValues : List ℚ) (bpStats : BpStats) :
    List Adjustment × String :=
  let diabetesAdj : List Adjustment :=
    if "diabetes" ∈ diseases then
      match analyze_glucose_trends glucoseValues glucoseStats with
      | some g =>
        if g.inTarget = false then
          match g.average with
          | some a =>
            if a ≠ 0 ∧ 180 < a then [vegAdjustment, walkAdjustment]
            else if a ≠ 0 ∧ a < 80 then [snackAdjustment]
            else []
          | none => []
        else []
      | none => []
    else []
  let hypertensionAdj : List Adjustment :=
    if "hypertension" ∈ diseases then
      match analyze_bp_trends bpSystolicValues bpStats with
      | some b =>
        if b.category = "stage1" ∨ b.category = "stage2" then
          [sodiumAdjustment, relaxAdjustment]
        else []
      | none => []
    else []
  let adjustments := diabetesAdj ++ hypertensionAdj
  (adjustments,
    if adjustments ≠ [] then
      "Your care plan has been updated based on this week's data"
    else "No adjustments needed - keep up the good work!")

-- ==================== ai_analyzer.py: food analysis ====================

/-- One `FOOD_DATABASE` entry (ai_analyzer.py:275-343): per-serving
calories, carbs, sugar, fiber, protein and glycemic index. -/
structure FoodData where
  calories : ℚ
  carbs : ℚ
  sugar : ℚ
  fiber : ℚ
  protein : ℚ
  gi : ℚ
deriving Repr, DecidableEq

/-- ai_analyzer.py:275-343 `FOOD_DATABASE`, in source (insertion) order,
which is also Python's dict iteration order for the multi-word pass. -/
def FOOD_DATABASE : List (String × FoodData) := [
  ("rice", ⟨130, 28, 0, 0.4, 2.7, 73⟩),
  ("white rice", ⟨130, 28, 0, 0.4, 2.7, 73⟩),
  ("brown rice", ⟨112, 24, 0, 1.8, 2.6, 50⟩),
  ("bread", ⟨79, 15, 1.5, 0.6, 2.7, 75⟩),
  ("whole wheat bread", ⟨81, 14, 1.4, 2, 4, 51⟩),
  ("roti", ⟨71, 15, 0.3, 1.9, 2.7, 62⟩),
  ("chapati", ⟨71, 15, 0.3, 1.9, 2.7, 62⟩),
  ("oats", ⟨68, 12, 0.5, 1.7, 2.4, 55⟩),
  ("pasta", ⟨131, 25, 0.6, 1.8, 5, 50⟩),
  ("chicken", ⟨165, 0, 0, 0, 31, 0⟩),
  ("fish", ⟨206, 0, 0, 0, 22, 0⟩),
  ("egg", ⟨155, 1.1, 1.1, 0, 13, 0⟩),
  ("eggs", ⟨155, 1.1, 1.1, 0, 13, 0⟩),
  ("dal", ⟨116, 20, 1, 8, 9, 30⟩),
  ("lentils", ⟨116, 20, 1, 8, 9, 30⟩),
  ("paneer", ⟨265, 1.2, 0.5, 0, 18, 0⟩),
  ("tofu", ⟨76, 1.9, 0.6, 0.3, 8, 15⟩),
  ("salad", ⟨20, 3.6, 1.3, 1.8, 1.3, 15⟩),
  ("vegetables", ⟨25, 5, 2.4, 2, 1.3, 15⟩),
  ("spinach", ⟨23, 3.6, 0.4, 2.2, 2.9, 15⟩),
  ("broccoli", ⟨34, 7, 1.7, 2.6, 2.8, 10⟩),
  ("potato", ⟨77, 17, 0.8, 2.2, 2, 78⟩),
  ("sweet potato", ⟨86, 20, 4.2, 3, 1.6, 63⟩),
  ("apple", ⟨52, 14, 10, 2.4, 0.3, 36⟩),
  ("banana", ⟨89, 23, 12, 2.6, 1.1, 51⟩),
  ("orange", ⟨47, 12, 9, 2.4, 0.9, 43⟩),
  ("mango", ⟨60, 15, 14, 1.6, 0.8, 56⟩),
  ("grapes", ⟨69, 18, 16, 0.9, 0.7, 59⟩),
  ("watermelon", ⟨30, 8, 6, 0.4, 0.6, 76⟩),
  ("milk", ⟨42, 5, 5, 0, 3.4, 39⟩),
  ("yogurt", ⟨59, 3.6, 3.2, 0, 10, 35⟩),
  ("curd", ⟨98, 3.4, 3.4, 0, 11, 35⟩),
  ("cheese", ⟨402, 1.3, 0.5, 0, 25, 0⟩),
  ("idli", ⟨39, 8, 0.2, 0.4, 1.3, 77⟩),
  ("dosa", ⟨133, 18, 1.5, 1, 4, 77⟩),
  ("upma", ⟨161, 26, 1, 2, 4, 65⟩),
  ("poha", ⟨180, 32, 2, 1, 3.5, 64⟩),
  ("biryani", ⟨290, 35, 2, 1, 15, 70⟩),
  ("pizza", ⟨266, 33, 3.6, 2.3, 11, 80⟩),
  ("burger", ⟨295, 24, 5, 1.3, 17, 66⟩),
  ("sandwich", ⟨252, 29, 4, 2, 10, 55⟩),
  ("tea", ⟨2, 0.5, 0, 0, 0, 0⟩),
  ("coffee", ⟨2, 0, 0, 0, 0.3, 0⟩),
  ("juice", ⟨45, 11, 10, 0.2, 0.4, 50⟩),
  ("soda", ⟨41, 10.6, 10.6, 0, 0, 63⟩),
  ("lassi", ⟨72, 8, 7, 0, 3, 35⟩),
  ("biscuits", ⟨502, 63, 20, 2, 6, 70⟩),
  ("chips", ⟨536, 53, 0.3, 4.4, 7, 54⟩),
  ("samosa", ⟨262, 24, 2, 2, 4, 60⟩),
  ("pakora", ⟨200, 18, 1, 2, 5, 55⟩),
  ("nuts", ⟨607, 21, 4, 7, 20, 15⟩),
  ("almonds", ⟨579, 22, 4, 12.5, 21, 0⟩)]

/-- Python `word in FOOD_DATABASE` / `FOOD_DATABASE[word]`. -/
def lookupFood (w : String) : Option FoodData :=
  (FOOD_DATABASE.find? (fun p => p.1 = w)).map (fun p => p.2)

/-- Running nutrition totals (`total_nutrition`, ai_analyzer.py:359-366). -/
structure Totals where
  calories : ℚ
  carbs : ℚ
  sugar : ℚ
  fiber : ℚ
  protein : ℚ
  gi : ℚ
deriving Repr, DecidableEq

/-- `total_nutrition[key] += food_data[key] * multiplier` over all six keys
(ai_analyzer.py:389-390); note the glycemic index is scaled too. -/
def addFood (t : Totals) (fd : FoodData) (m : ℚ) : Totals :=
  ⟨t.calories + fd.calories * m, t.carbs + fd.carbs * m,
    t.sugar + fd.sugar * m, t.fiber + fd.fiber * m,
    t.protein + fd.protein * m, t.gi + fd.gi * m⟩

/-- ai_analyzer.py:369-380: quantity multiplier parsing in `analyze_food`. -/
def foodMultiplier (quantity : String) : ℚ :=
  let q := pyLower quantity
  if containsSub q "2" ∨ containsSub q "two" ∨ containsSub q "double" then 2
  else if containsSub q "half" ∨ containsSub q "0.5" then 0.5
  else if containsSub q "3" ∨ containsSub q "three" then 3
  else if containsSub q "large" then 1.5
  else if containsSub q "small" then 0.7
  else 1

/-- ai_analyzer.py:383-390: the word pass.  Each word (stripped of
`,.!?`) found in the database is appended to `matched_foods` — with no
deduplication — and its nutrition added. -/
def wordPass (m : ℚ) : List String → List String × Totals → List String × Totals
  | [], acc => acc
  | w :: ws, (matched, t) =>
    let w := stripPunct w
    match lookupFood w with
    | some fd => wordPass m ws (matched ++ [w], addFood t fd m)
    | none => wordPass m ws (matched, t)

/-- ai_analyzer.py:393-398: the multi-word pass over the database in
insertion order, adding names that occur in the description and were not
matched already. -/
def multiPass (desc : String) (m : ℚ) :
    List (String × FoodData) → List String × Totals → List String × Totals
  | [], acc => acc
  | (name, fd) :: rest, (matched, t) =>
    if containsSub desc name ∧ name ∉ matched then
      multiPass desc m rest (matched ++ [name], addFood t fd m)
    else
      multiPass desc m rest (matched, t)

/-- ai_analyzer.py:350-414 `analyze_food`, up to the point where
`total_nutrition` is final: lower-cased/trimmed description, both matching
passes, the no-match default (note its unscaled `gi = 50`), and the
division of the summed `gi` by the match count when more than one food
matched. -/
def analyzeFoodCore (food_description quantity : String) :
    List String × Totals :=
  let desc := pyTrim (pyLower food_description)
  let m := foodMultiplier quantity
  let (matched, t) := wordPass m (pyWords desc) ([], ⟨0, 0, 0, 0, 0, 0⟩)
  let (matched, t) := multiPass desc m FOOD_DATABASE (matched, t)
  if matched = [] then
    (["unknown food"], ⟨200 * m, 25 * m, 5 * m, 2 * m, 8 * m, 50⟩)
  else if 1 < matched.length then
    (matched, { t with gi := t.gi / (matched.length : ℚ) })
  else (matched, t)

/-- The `nutrition` dict returned by `analyze_food`
(ai_analyzer.py:426-433). -/
structure Nutrition where
  calories : ℚ
  carbohydrates_g : ℚ
  sugar_g : ℚ
  fiber_g : ℚ
  protein_g : ℚ
  glycemic_index : ℚ
deriving Repr, DecidableEq

/-- The claim-relevant part of the `analyze_food` result
(ai_analyzer.py:422-437): matched foods and rounded nutrition; the risk
and suitability summaries are elided. -/
structure FoodAnalysis where
  matched_foods : List String
  nutrition : Nutrition
deriving Repr, DecidableEq

/-- ai_analyzer.py:350-437 `analyze_food` (matched foods and nutrition). -/
def analyze_food (food_description quantity : String) : FoodAnalysis :=
  let (matched, t) := analyzeFoodCore food_description quantity
  ⟨matched,
    ⟨pyRound1 t.calories, pyRound1 t.carbs, pyRound1 t.sugar,
      pyRound1 t.fiber, pyRound1 t.protein, pyRound0 t.gi⟩⟩

-- ============ ai_analyzer.py: hypertension food analysis ============

/-- ai_analyzer.py:218. -/
def high_sodium_foods : List String :=
  ["pickle", "papad", "chips", "fries", "pizza", "burger", "samosa",
    "pakora", "chaat", "namkeen", "processed", "canned", "instant"]

/-- ai_analyzer.py:219. -/
def medium_sodium_foods : List String :=
  ["bread", "cheese", "roti", "paratha", "puri", "biryani"]

/-- ai_analyzer.py:220. -/
def low_sodium_foods : List String :=
  ["salad", "fruit", "vegetables", "dal", "rice", "oats", "milk", "curd",
    "yogurt"]

/-- Does any keyword of the bucket occur in the description? (one of the
`for food in ...: if food in food_lower` loops, ai_analyzer.py:222-233). -/
def anyKeyword (bucket : List String) (foodLower : String) : Bool :=
  bucket.any (fun k => containsSub foodLower k)

/-- ai_analyzer.py:216-233: the default 200 estimate overwritten in turn by
the high, medium and low bucket loops — each later loop overwrites the
earlier result, there is no `elif` between buckets. -/
def sodiumEstimate (foodLower : String) : ℚ :=
  let e0 : ℚ := 200
  let e1 := if anyKeyword high_sodium_foods foodLower then 600 else e0
  let e2 := if anyKeyword medium_sodium_foods foodLower then 350 else e1
  if anyKeyword low_sodium_foods foodLower then 100 else e2

/-- ai_analyzer.py:236-241: quantity multiplier in
`analyze_food_hypertension_static` (distinct from `foodMultiplier`). -/
def sodiumMultiplier (quantity : String) : ℚ :=
  let q := pyLower quantity
  if containsSub q "2" ∨ containsSub q "large" then 1.5
  else if containsSub q "small" ∨ containsSub q "half" then 0.6
  else 1

/-- Claim-relevant fields of the `analyze_food_hypertension_static` result
(ai_analyzer.py:248-268); the nutrition pass-through from `analyze_food`
and the advice strings are elided. -/
structure HypertensionFoodRes where
  sodium_mg : ℤ
  dash_compliant : Bool
  dash_score : String
deriving Repr, DecidableEq

/-- ai_analyzer.py:209-268 `analyze_food_hypertension_static`:
`sodium_mg = int(sodium_estimate * multiplier)`, DASH compliance iff
`sodium_mg < 400`, score `"Good"`/`"Moderate"`/`"Poor"`. -/
def analyze_food_hypertension_static (food_description quantity : String) :
    HypertensionFoodRes :=
  let sodium_mg := pyInt (sodiumEstimate (pyLower food_description)
    * sodiumMultiplier quantity)
  let compliant := decide (sodium_mg < 400)
  ⟨sodium_mg, compliant,
    if compliant then "Good" else if sodium_mg < 600 then "Moderate"
    else "Poor"⟩

-- ============ ai_analyzer.py: weekly aggregation functions ============

/-- Claim-relevant fields of the `calculate_diet_quality` result
(ai_analyzer.py:786-823); `consistency` is the internal logging-consistency
percentage the rating tiers test, `avgCalories` the guarded division. -/
structure DietQualityRes where
  score : ℕ
  rating : String
  meals_logged : ℕ
  consistency : ℚ
  avgCalories : ℚ
deriving Repr, DecidableEq

/-- ai_analyzer.py:800-801: `consistency = min(100, meals_logged/21*100)`. -/
def dietConsistencyPct (mealsLogged : ℕ) : ℚ :=
  min 100 ((mealsLogged : ℚ) / 21 * 100)

/-- ai_analyzer.py:786-823 `calculate_diet_quality` as a function of the
logged calorie values. -/
def calculate_diet_quality (foodLogValues : List ℚ) : DietQualityRes :=
  if foodLogValues = [] then ⟨0, "No data", 0, 0, 0⟩
  else
    let mealsLogged := foodLogValues.length
    let avgCalories :=
      if 0 < mealsLogged then foodLogValues.sum / (mealsLogged : ℚ) else 0
    let consistency := dietConsistencyPct mealsLogged
    if 70 ≤ consistency then
      ⟨90, "Excellent", mealsLogged, consistency, avgCalories⟩
    else if 50 ≤ consistency then
      ⟨70, "Good", mealsLogged, consistency, avgCalories⟩
    else if 30 ≤ consistency then
      ⟨50, "Fair", mealsLogged, consistency, avgCalories⟩
    else ⟨30, "Needs Improvement", mealsLogged, consistency, avgCalories⟩

/-- The four-tier rating block that appears verbatim both in
`calculate_exercise_consistency` (ai_analyzer.py:844-855) and in
`calculate_exercise_consistency_with_strava` (ai_analyzer.py:649-660). -/
def exerciseTier (percentage : ℚ) : String × ℕ :=
  if 100 ≤ percentage then ("Excellent", 100)
  else if 75 ≤ percentage then ("Good", 80)
  else if 50 ≤ percentage then ("Fair", 60)
  else ("Needs Improvement", 40)

/-- Claim-relevant fields of the exercise-consistency results;
`percentage` is the internal percentage the tiers test (the returned
`percentage_of_goal` is its `round(·, 0)`). -/
structure ExerciseRes where
  score : ℕ
  rating : String
  totalMinutes : ℚ
  percentage : ℚ
deriving Repr, DecidableEq

/-- ai_analyzer.py:826-864 `calculate_exercise_consistency` as a function
of the logged activity-minute values. -/
def calculate_exercise_consistency (activityLogValues : List ℚ) :
    ExerciseRes :=
  if activityLogValues = [] then ⟨0, "No data", 0, 0⟩
  else
    let total := activityLogValues.sum
    let percentage := min 100 (total / 150 * 100)
    let tier := exerciseTier percentage
    ⟨tier.2, tier.1, total, percentage⟩

/-- ai_analyzer.py:630-672 `calculate_exercise_consistency_with_strava`:
manual plus Strava minutes against the same fixed 150-minute target, with
the dead `if target_minutes > 0` guard kept. -/
def calculate_exercise_consistency_with_strava
    (activityLogValues : List ℚ) (stravaMinutes : ℚ) : ExerciseRes :=
  let manual := activityLogValues.sum
  let total := manual + stravaMinutes
  let percentage :=
    if (0 : ℚ) < 150 then min 100 (total / 150 * 100) else 0
  let tier := exerciseTier percentage
  ⟨tier.2, tier.1, total, percentage⟩

/-- ai_analyzer.py:878: doses marked taken (`taken_at` truthy). -/
def takenDoses (medLogsTaken : List Bool) : ℕ :=
  (medLogsTaken.filter (fun b => b)).length

/-- ai_analyzer.py:877-883: `expected_doses = len(medications) * 7`, and
the adherence percentage with its zero-denominator sentinel of 100. -/
def medAdherencePct (numMeds taken : ℕ) : ℚ :=
  if numMeds * 7 = 0 then 100
  else min 100 ((taken : ℚ) / ((numMeds * 7 : ℕ) : ℚ) * 100)

/-- Claim-relevant fields of `calculate_medication_adherence`
(ai_analyzer.py:867-904); `percentage` is the internal percentage (the
returned one is its `round(·, 0)`).  The no-medication early return
carries no dose counts in the source; they are 0 here. -/
structure MedAdherenceRes where
  score : ℕ
  rating : String
  percentage : ℚ
  expected_doses : ℕ
  taken_doses : ℕ
deriving Repr, DecidableEq

/-- ai_analyzer.py:867-904 `calculate_medication_adherence`: an empty
medication list short-circuits to score 100 / percentage 100. -/
def calculate_medication_adherence (medications : List String)
    (medLogsTaken : List Bool) : MedAdherenceRes :=
  if medications = [] then ⟨100, "No medications", 100, 0, 0⟩
  else
    let expected := medications.length * 7
    let taken := takenDoses medLogsTaken
    let percentage := medAdherencePct medications.length taken
    if 90 ≤ percentage then ⟨95, "Excellent", percentage, expected, taken⟩
    else if 75 ≤ percentage then ⟨75, "Good", percentage, expected, taken⟩
    else if 50 ≤ percentage then ⟨50, "Fair", percentage, expected, taken⟩
    else ⟨30, "Needs Improvement", percentage, expected, taken⟩

/-- Claim-relevant fields of `analyze_glucose_week`
(ai_analyzer.py:907-945); min/max of the values are elided. -/
structure GlucoseWeekRes where
  average : ℚ
  trend : String
  inRangePercentage : ℚ
  readings : ℕ
deriving Repr, DecidableEq

/-- ai_analyzer.py:907-945 `analyze_glucose_week`: weekly average, trend of
the half means against an absolute delta of 10 (labels
`improving`/`worsening`/`stable`), and the 80-180 in-range percentage. -/
def analyze_glucose_week (values : List ℚ) : GlucoseWeekRes :=
  if values = [] then ⟨0, "no_data", 0, 0⟩
  else
    let n := values.length
    let avg := values.sum / (n : ℚ)
    let inRange := (values.filter (fun v => 80 ≤ v ∧ v ≤ 180)).length
    let trend :=
      if 3 ≤ n then
        let f := (values.take (n / 2)).sum / ((n / 2 : ℕ) : ℚ)
        let s := (values.drop (n / 2)).sum / ((n - n / 2 : ℕ) : ℚ)
        if s < f - 10 then "improving"
        else if f + 10 < s then "worsening"
        else "stable"
      else "insufficient_data"
    ⟨pyRound0 avg, trend, pyRound0 ((inRange : ℚ) / (n : ℚ) * 100), n⟩

/-- Claim-relevant fields of `analyze_bp_week` (ai_analyzer.py:675-716). -/
structure BpWeekRes where
  avgSystolic : ℚ
  avgDiastolic : ℚ
  trend : String
  readings : ℕ
deriving Repr, DecidableEq

/-- ai_analyzer.py:675-716 `analyze_bp_week` as a function of
(systolic, diastolic) pairs: averages of both components and the systolic
trend of the half means against an absolute delta of 5 (labels
`improving`/`worsening`/`stable`). -/
def analyze_bp_week (bpLogs : List (ℚ × ℚ)) : BpWeekRes :=
  if bpLogs = [] then ⟨0, 0, "no_data", 0⟩
  else
    let sys := bpLogs.map Prod.fst
    let dia := bpLogs.map Prod.snd
    let n := bpLogs.length
    let trend :=
      if 3 ≤ sys.length then
        let f := (sys.take (sys.length / 2)).sum / ((sys.length / 2 : ℕ) : ℚ)
        let s := (sys.drop (sys.length / 2)).sum
          / ((sys.length - sys.length / 2 : ℕ) : ℚ)
        if s < f - 5 then "improving"
        else if f + 5 < s then "worsening"
        else "stable"
      else "insufficient_data"
    ⟨pyRound0 (sys.sum / (n : ℚ)), pyRound0 (dia.sum / (n : ℚ)), trend, n⟩

-- ==================== helper lemmas ====================

theorem halfAvg_of_three_le (values : List ℚ) (h : 3 ≤ values.length) :
    firstHalfAvg values
      = (values.take (values.length / 2)).sum / ((values.length / 2 : ℕ) : ℚ)
    ∧ secondHalfAvg values
      = (values.drop (values.length / 2)).sum
        / ((values.length - values.length / 2 : ℕ) : ℚ) := by
  have h1 : 0 < values.length / 2 := Nat.div_pos (by omega) (by omega)
  have h2 : 0 < values.length - values.length / 2 := by omega
  constructor
  · simp [firstHalfAvg, h1]
  · simp [secondHalfAvg, h2]

theorem diffPercent_gt_iff (f s : ℚ) :
    5 < (if 0 < f then (s - f) / f * 100 else 0)
      ↔ 0 < f ∧ 5 * f < 100 * (s - f) := by
  split_ifs with hf
  · rw [div_mul_eq_mul_div, lt_div_iff₀ hf]
    constructor
    · intro hx; exact ⟨hf, by linarith⟩
    · intro hx; linarith [hx.2]
  · constructor
    · intro h5; norm_num at h5
    · intro hx; exact absurd hx.1 hf

theorem diffPercent_lt_iff (f s : ℚ) :
    (if 0 < f then (s - f) / f * 100 else 0) < -5
      ↔ 0 < f ∧ 100 * (s - f) < -(5 * f) := by
  split_ifs with hf
  · rw [div_mul_eq_mul_div, div_lt_iff₀ hf]
    constructor
    · intro hx; exact ⟨hf, by linarith⟩
    · intro hx; linarith [hx.2]
  · constructor
    · intro h5; norm_num at h5
    · intro hx; exact absurd hx.1 hf

theorem medAdherencePct_mem (n t : ℕ) :
    0 ≤ medAdherencePct n t ∧ medAdherencePct n t ≤ 100 := by
  unfold medAdherencePct
  split_ifs with h0
  · norm_num
  · refine ⟨le_min (by norm_num) (by positivity), min_le_left _ _⟩

-- ==================== claim theorems ====================

/-- Claim C1 (code bug): `get_bp_status` classifies (180, 70) as
`hypertensive_crisis` by the ordered highest-severity-first chain, but the
second BP-categorization function `categorize_bp` has no crisis branch at
all and lands the very same reading in `stage1`, contradicting the repo's
own AHA tables. -/
theorem c1_bp_categorizers_disagree_at_180_70 :
    (get_bp_status 180 70).category = "hypertensive_crisis"
    ∧ (get_bp_status 180 70).severity = "critical"
    ∧ categorize_bp 180 70 = "stage1" := by decide

/-- Claim C10: whenever the first-half mean of a list of at least 3 values
is nonpositive, `calculate_trend_direction` defines the percent difference
as 0 and returns `stable`, whatever the second half holds; the division by
the first-half mean is behind that guard. -/
theorem c10_nonpositive_first_half_gives_stable (values : List ℚ)
    (h3 : 3 ≤ values.length) (hf : firstHalfAvg values ≤ 0) :
    calculate_trend_direction values = "stable" := by
  have hlt : ¬(values.length < 3) := by omega
  have hnot : ¬(0 < firstHalfAvg values) := not_lt.mpr hf
  simp [calculate_trend_direction, hlt, hnot]
  norm_num

/-- Witness for C10 at the concrete list [0, 0, 5]: its first half is [0]
with mean 0, and the trend is `stable` despite the rising second half. -/
theorem c10_witness :
    3 ≤ ([0, 0, 5] : List ℚ).length
    ∧ firstHalfAvg [0, 0, 5] ≤ 0
    ∧ calculate_trend_direction [0, 0, 5] = "stable" :=
  ⟨by decide, by decide,
    c10_nonpositive_first_half_gives_stable [0, 0, 5] (by decide) (by decide)⟩

/-- Claim C4 counterexample: calling the classifier with the unknown
reading type "random" does not signal any error — the embedding is total
because the source has no raise path — it returns the ordinary fallback
result with status "unknown". -/
theorem c4_unknown_type_returns_value_cex :
    get_glucose_status 100 "random"
      = ⟨"unknown", "Unknown reading type", none⟩ := by decide

/-- Claim C4 as amended: an unrecognized reading type makes
`get_glucose_status` return the normal fallback value
`{status: "unknown", message: "Unknown reading type"}` (no
`UnsupportedMetricError` exists in the code and nothing is raised), while
every numeric value under the recognized reading types resolves to some
band. -/
theorem c4_unknown_type_amended (v : ℚ) (rt : String)
    (h1 : rt ≠ "fasting") (h2 : rt ≠ "after_meal") :
    get_glucose_status v rt = ⟨"unknown", "Unknown reading type", none⟩
    ∧ (get_glucose_status v "fasting").status ∈ ["low", "high", "normal"]
    ∧ (get_glucose_status v "after_meal").status ∈ ["high", "normal"] := by
  refine ⟨by simp [get_glucose_status, h1, h2], ?_, ?_⟩
  · unfold get_glucose_status
    split_ifs <;> simp_all
  · unfold get_glucose_status
    split_ifs <;> simp_all

/-- Witness for the amended C4 at value 250 and reading type "bedtime". -/
theorem c4_witness :
    get_glucose_status 250 "bedtime"
      = ⟨"unknown", "Unknown reading type", none⟩
    ∧ (get_glucose_status 250 "fasting").status ∈ ["low", "high", "normal"]
    ∧ (get_glucose_status 250 "after_meal").status ∈ ["high", "normal"] :=
  c4_unknown_type_amended 250 "bedtime" (by decide) (by decide)

/-- Claim C5: with an empty medication list, weekly medication adherence is
score 100 / percentage 100 whatever the logs hold; with at least one
medication, expected doses are `count * 7` and the adherence percentage is
`min 100 (taken / expected * 100)` (the `expected == 0` sentinel branch is
unreachable there). -/
theorem c5_medication_adherence (meds : List String)
    (medLogsTaken : List Bool) (h : meds ≠ []) :
    calculate_medication_adherence [] medLogsTaken
      = ⟨100, "No medications", 100, 0, 0⟩
    ∧ (calculate_medication_adherence meds medLogsTaken).expected_doses
        = meds.length * 7
    ∧ (calculate_medication_adherence meds medLogsTaken).percentage
        = min 100 ((takenDoses medLogsTaken : ℚ)
            / ((meds.length * 7 : ℕ) : ℚ) * 100) := by
  have h7 : ¬(meds.length * 7 = 0) := by
    have : meds.length ≠ 0 := fun e => h (List.length_eq_zero.mp e)
    omega
  refine ⟨by simp [calculate_medication_adherence], ?_, ?_⟩
  · unfold calculate_medication_adherence
    simp only [h, if_false]
    split_ifs <;> rfl
  · unfold calculate_medication_adherence medAdherencePct
    simp only [h, if_false, h7]
    split_ifs <;> rfl

/-- Witness for C5 with one medication and two taken doses: expected doses
7, percentage min(100, 2/7*100). -/
theorem c5_witness :
    (["metformin"] : List String) ≠ []
    ∧ (calculate_medication_adherence ["metformin"] [true, true]
        = ⟨30, "Needs Improvement", 200/7, 7, 2⟩)
    ∧ (calculate_medication_adherence ["metformin"] [true, true]).percentage
        = min 100 ((takenDoses [true, true] : ℚ) / ((1 * 7 : ℕ) : ℚ) * 100) :=
  ⟨by decide, by decide,
    by
      have h := c5_medication_adherence ["metformin"] [true, true] (by decide)
      simpa using h.2.2⟩

/-- Claim C2 counterexample: on [50, 50, 56] the difference of the half
means is 3, below both claimed absolute deltas (10 for glucose, 5 for BP),
so the claim predicts "stable"; but `calculate_trend_direction` uses a
relative 5-percent threshold (3 is 6 percent of the first-half mean 50)
and returns "increasing". -/
theorem c2_relative_threshold_cex :
    calculate_trend_direction [50, 50, 56] = "increasing"
    ∧ secondHalfAvg [50, 50, 56] - firstHalfAvg [50, 50, 56] = 3
    ∧ ¬((5 : ℚ) < 3) ∧ ¬((10 : ℚ) < 3) := by decide

/-- Claim C2 as amended: for at least 3 values,
`calculate_trend_direction` compares the mean of the first `n / 2` values
with the mean of the rest, but against a RELATIVE threshold — increasing
iff the difference exceeds 5 percent of a positive first-half mean,
decreasing iff below -5 percent, stable otherwise — and returns
`insufficient_data` below 3 values.  The fixed absolute deltas of the
claim belong to the weekly analyzers: `analyze_glucose_week` uses 10 and
`analyze_bp_week` uses 5, and they label the directions
`worsening`/`improving`/`stable` instead. -/
theorem c2_trend_thresholds_amended (values : List ℚ)
    (bpLogs : List (ℚ × ℚ)) (h : 3 ≤ values.length)
    (hbp : 3 ≤ bpLogs.length) :
    (calculate_trend_direction values = "increasing"
      ↔ 0 < firstHalfAvg values
        ∧ 5 * firstHalfAvg values
            < 100 * (secondHalfAvg values - firstHalfAvg values))
    ∧ (calculate_trend_direction values = "decreasing"
      ↔ 0 < firstHalfAvg values
        ∧ 100 * (secondHalfAvg values - firstHalfAvg values)
            < -(5 * firstHalfAvg values))
    ∧ (calculate_trend_direction values = "stable"
      ↔ ¬(0 < firstHalfAvg values
            ∧ 5 * firstHalfAvg values
              < 100 * (secondHalfAvg values - firstHalfAvg values))
        ∧ ¬(0 < firstHalfAvg values
            ∧ 100 * (secondHalfAvg values - firstHalfAvg values)
              < -(5 * firstHalfAvg values)))
    ∧ ((analyze_glucose_week values).trend = "worsening"
      ↔ firstHalfAvg values + 10 < secondHalfAvg values)
    ∧ ((analyze_glucose_week values).trend = "improving"
      ↔ secondHalfAvg values < firstHalfAvg values - 10)
    ∧ ((analyze_bp_week bpLogs).trend = "worsening"
      ↔ firstHalfAvg (bpLogs.map Prod.fst) + 5
          < secondHalfAvg (bpLogs.map Prod.fst))
    ∧ ((analyze_bp_week bpLogs).trend = "improving"
      ↔ secondHalfAvg (bpLogs.map Prod.fst)
          < firstHalfAvg (bpLogs.map Prod.fst) - 5)
    ∧ (∀ vs : List ℚ, vs.length < 3 →
        calculate_trend_direction vs = "insufficient_data") := by
  have hlt : ¬(values.length < 3) := by omega
  have hne : values ≠ [] := by
    intro e; rw [e] at h; simp at h
  have hcal : calculate_trend_direction values
      = (if 5 < (if 0 < firstHalfAvg values then
              (secondHalfAvg values - firstHalfAvg values)
                / firstHalfAvg values * 100 else 0)
          then "increasing"
          else if (if 0 < firstHalfAvg values then
              (secondHalfAvg values - firstHalfAvg values)
                / firstHalfAvg values * 100 else 0) < -5
          then "decreasing" else "stable") := by
    unfold calculate_trend_direction
    rw [if_neg hlt]
  have hgt := diffPercent_gt_iff (firstHalfAvg values) (secondHalfAvg values)
  have hlt2 := diffPercent_lt_iff (firstHalfAvg values) (secondHalfAvg values)
  set dp : ℚ := (if 0 < firstHalfAvg values then
      (secondHalfAvg values - firstHalfAvg values)
        / firstHalfAvg values * 100 else 0) with hdp
  obtain ⟨hfeq, hseq⟩ := halfAvg_of_three_le values h
  have hweek : (analyze_glucose_week values).trend
      = (if (values.drop (values.length / 2)).sum
              / ((values.length - values.length / 2 : ℕ) : ℚ)
            < (values.take (values.length / 2)).sum
              / ((values.length / 2 : ℕ) : ℚ) - 10
          then "improving"
          else if (values.take (values.length / 2)).sum
              / ((values.length / 2 : ℕ) : ℚ) + 10
            < (values.drop (values.length / 2)).sum
              / ((values.length - values.length / 2 : ℕ) : ℚ)
          then "worsening" else "stable") := by
    simp [analyze_glucose_week, hne, h]
  rw [← hfeq, ← hseq] at hweek
  have hbpne : bpLogs ≠ [] := by
    intro e; rw [e] at hbp; simp at hbp
  have hbp2 : 3 ≤ (bpLogs.map Prod.fst).length := by simpa using hbp
  obtain ⟨hbf, hbs⟩ := halfAvg_of_three_le (bpLogs.map Prod.fst) hbp2
  simp only [List.length_map] at hbf hbs
  have hbweek : (analyze_bp_week bpLogs).trend
      = (if ((bpLogs.map Prod.fst).drop (bpLogs.length / 2)).sum
              / ((bpLogs.length - bpLogs.length / 2 : ℕ) : ℚ)
            < ((bpLogs.map Prod.fst).take (bpLogs.length / 2)).sum
              / ((bpLogs.length / 2 : ℕ) : ℚ) - 5
          then "improving"
          else if ((bpLogs.map Prod.fst).take (bpLogs.length / 2)).sum
              / ((bpLogs.length / 2 : ℕ) : ℚ) + 5
            < ((bpLogs.map Prod.fst).drop (bpLogs.length / 2)).sum
              / ((bpLogs.length - bpLogs.length / 2 : ℕ) : ℚ)
          then "worsening" else "stable") := by
    simp [analyze_bp_week, hbpne, hbp]
  rw [← hbf, ← hbs] at hbweek
  refine ⟨?_, ?_, ?_, ?_, ?_, ?_, ?_, ?_⟩
  · rw [hcal]
    split_ifs with h5 hneg
    · simp only [true_iff, iff_true]
      exact hgt.mp h5
    · constructor
      · intro hx; exact absurd hx (by decide)
      · intro hx; exact absurd (hgt.mpr hx) h5
    · constructor
      · intro hx; exact absurd hx (by decide)
      · intro hx; exact absurd (hgt.mpr hx) h5
  · rw [hcal]
    split_ifs with h5 hneg
    · constructor
      · intro hx; exact absurd hx (by decide)
      · intro hx
        rcases hgt.mp h5 with ⟨hf0, hi⟩
        exact (by linarith [hx.2] : False).elim
    · simp only [true_iff, iff_true]
      exact hlt2.mp hneg
    · constructor
      · intro hx; exact absurd hx (by decide)
      · intro hx; exact absurd (hlt2.mpr hx) hneg
  · rw [hcal]
    split_ifs with h5 hneg
    · constructor
      · intro hx; exact absurd hx (by decide)
      · intro hx; exact absurd (hgt.mp h5) hx.1
    · constructor
      · intro hx; exact absurd hx (by decide)
      · intro hx; exact absurd (hlt2.mp hneg) hx.2
    · simp only [true_iff, iff_true]
      exact ⟨fun hx => h5 (hgt.mpr hx), fun hx => hneg (hlt2.mpr hx)⟩
  · rw [hweek]
    split_ifs with h1 h2
    · constructor
      · intro hx; exact absurd hx (by decide)
      · intro hx; exact (by linarith : False).elim
    · simp [h2]
    · simp [h2]
  · rw [hweek]
    split_ifs with h1 h2
    · simp [h1]
    · constructor
      · intro hx; exact absurd hx (by decide)
      · intro hx; exact absurd hx h1
    · constructor
      · intro hx; exact absurd hx (by decide)
      · intro hx; exact absurd hx h1
  · rw [hbweek]
    split_ifs with h1 h2
    · constructor
      · intro hx; exact absurd hx (by decide)
      · intro hx; exact (by linarith : False).elim
    · simp [h2]
    · simp [h2]
  · rw [hbweek]
    split_ifs with h1 h2
    · simp [h1]
    · constructor
      · intro hx; exact absurd hx (by decide)
      · intro hx; exact absurd hx h1
    · constructor
      · intro hx; exact absurd hx (by decide)
      · intro hx; exact absurd hx h1
  · intro vs hlen
    simp [calculate_trend_direction, hlen]

/-- Witness for the amended C2 at [50, 50, 56] (and a 3-reading BP week):
the relative threshold fires (6 percent > 5 percent) even though the
absolute difference 3 is under both deltas, and a 2-element list is
insufficient data. -/
theorem c2_witness :
    3 ≤ ([50, 50, 56] : List ℚ).length
    ∧ (calculate_trend_direction [50, 50, 56] = "increasing"
        ↔ 0 < firstHalfAvg [50, 50, 56]
          ∧ 5 * firstHalfAvg [50, 50, 56]
              < 100 * (secondHalfAvg [50, 50, 56] - firstHalfAvg [50, 50, 56]))
    ∧ ((analyze_glucose_week [50, 50, 56]).trend = "worsening"
        ↔ firstHalfAvg [50, 50, 56] + 10 < secondHalfAvg [50, 50, 56])
    ∧ calculate_trend_direction [50, 56] = "insufficient_data" :=
  ⟨by decide,
    (c2_trend_thresholds_amended [50, 50, 56] [(120, 80), (121, 80), (122, 80)]
      (by decide) (by decide)).1,
    (c2_trend_thresholds_amended [50, 50, 56] [(120, 80), (121, 80), (122, 80)]
      (by decide) (by decide)).2.2.2.1,
    (c2_trend_thresholds_amended [50, 50, 56] [(120, 80), (121, 80), (122, 80)]
      (by decide) (by decide)).2.2.2.2.2.2.2 [50, 56] (by decide)⟩

/-- Claim C8 counterexample: glucose logs of all zeros give an analyzed
week (status not insufficient), out of the 80-130 target, with average
0 < 80 — the claim predicts a snack-timing diet adjustment — yet the
generator emits no adjustment, because `stats["average"]` is the falsy
`None`/0.0 and the Python truthiness guard fails. -/
theorem c8_zero_average_skips_snack_cex :
    analyze_glucose_trends [0, 0, 0] ⟨3, 0⟩ = some ⟨"stable", none, false⟩
    ∧ (0 : ℚ) < 80
    ∧ (generate_weekly_adjustments ["diabetes"] [0, 0, 0] ⟨3, 0⟩
        [] ⟨0, 0, 0⟩).1 = []
    ∧ (generate_weekly_adjustments ["diabetes"] [0, 0, 0] ⟨3, 0⟩
        [] ⟨0, 0, 0⟩).2 = "No adjustments needed - keep up the good work!" := by
  decide

/-- Claim C8 as amended: the rule chain is deterministic and additive —
for diabetes, an analyzed week out of target with a truthy (nonzero)
reported average above 180 appends the diet and activity adjustments, and
one below 80 appends the snack-timing adjustment (an average reported as
None/0.0 fires no rule); for hypertension, an analyzed week whose BP
category is stage1 or stage2 appends the sodium-reduction and relaxation
adjustments; no rule suppresses another, an empty list yields the
no-adjustment message and a non-empty one the updated-plan message. -/
theorem c8_adjustment_rules_amended (diseases : List String)
    (gValues : List ℚ) (gStats : GlucoseStats)
    (bpValues : List ℚ) (bpStats : BpStats)
    (g : GlucoseTrendRes) (b : BpTrendRes) (a : ℚ) :
    ("diabetes" ∈ diseases → analyze_glucose_trends gValues gStats = some g →
      g.inTarget = false → g.average = some a → a ≠ 0 → 180 < a →
      vegAdjustment ∈ (generate_weekly_adjustments diseases gValues gStats
          bpValues bpStats).1
      ∧ walkAdjustment ∈ (generate_weekly_adjustments diseases gValues gStats
          bpValues bpStats).1)
    ∧ ("diabetes" ∈ diseases → analyze_glucose_trends gValues gStats = some g →
      g.inTarget = false → g.average = some a → a ≠ 0 → a < 80 →
      snackAdjustment ∈ (generate_weekly_adjustments diseases gValues gStats
          bpValues bpStats).1)
    ∧ ("hypertension" ∈ diseases →
      analyze_bp_trends bpValues bpStats = some b →
      (b.category = "stage1" ∨ b.category = "stage2") →
      sodiumAdjustment ∈ (generate_weekly_adjustments diseases gValues gStats
          bpValues bpStats).1
      ∧ relaxAdjustment ∈ (generate_weekly_adjustments diseases gValues gStats
          bpValues bpStats).1)
    ∧ ((generate_weekly_adjustments diseases gValues gStats
          bpValues bpStats).1 = [] →
      (generate_weekly_adjustments diseases gValues gStats bpValues bpStats).2
        = "No adjustments needed - keep up the good work!")
    ∧ ((generate_weekly_adjustments diseases gValues gStats
          bpValues bpStats).1 ≠ [] →
      (generate_weekly_adjustments diseases gValues gStats bpValues bpStats).2
        = "Your care plan has been updated based on this week's data") := by
  have hpair : (generate_weekly_adjustments diseases gValues gStats
        bpValues bpStats).2
      = (if (generate_weekly_adjustments diseases gValues gStats
              bpValues bpStats).1 ≠ []
          then "Your care plan has been updated based on this week's data"
          else "No adjustments needed - keep up the good work!") := rfl
  refine ⟨?_, ?_, ?_, ?_, ?_⟩
  · intro hd hg ht ha hne hgt
    constructor <;>
      simp [generate_weekly_adjustments, hd, hg, ht, ha, hne, hgt]
  · intro hd hg ht ha hne hlt
    have hn180 : ¬(180 < a) := by linarith
    simp [generate_weekly_adjustments, hd, hg, ht, ha, hne, hlt, hn180]
  · intro hh hb hcat
    rcases hcat with hc | hc <;>
      constructor <;>
        simp [generate_weekly_adjustments, hh, hb, hc]
  · intro he
    rw [hpair, if_neg (not_not_intro he)]
  · intro he
    rw [hpair, if_pos he]

/-- Witness for the amended C8: a diabetic-hypertensive week with average
glucose 200 (analyzed, out of target) and average BP 150/95 (stage2) fires
all four adjustments, and the message reports the updated plan. -/
theorem c8_witness :
    vegAdjustment ∈ (generate_weekly_adjustments ["diabetes", "hypertension"]
        [200, 200, 200] ⟨3, 200⟩ [150, 150, 150] ⟨3, 150, 95⟩).1
    ∧ walkAdjustment ∈ (generate_weekly_adjustments ["diabetes", "hypertension"]
        [200, 200, 200] ⟨3, 200⟩ [150, 150, 150] ⟨3, 150, 95⟩).1
    ∧ sodiumAdjustment ∈ (generate_weekly_adjustments ["diabetes", "hypertension"]
        [200, 200, 200] ⟨3, 200⟩ [150, 150, 150] ⟨3, 150, 95⟩).1
    ∧ relaxAdjustment ∈ (generate_weekly_adjustments ["diabetes", "hypertension"]
        [200, 200, 200] ⟨3, 200⟩ [150, 150, 150] ⟨3, 150, 95⟩).1
    ∧ (generate_weekly_adjustments ["diabetes", "hypertension"]
        [200, 200, 200] ⟨3, 200⟩ [150, 150, 150] ⟨3, 150, 95⟩).2
      = "Your care plan has been updated based on this week's data" := by
  have h := c8_adjustment_rules_amended ["diabetes", "hypertension"]
    [200, 200, 200] ⟨3, 200⟩ [150, 150, 150] ⟨3, 150, 95⟩
    ⟨"stable", some 200, false⟩ ⟨"stage2", "stable"⟩ 200
  have h1 := h.1 (by decide) (by decide) (by decide) (by decide)
    (by decide) (by decide)
  have h3 := h.2.2.1 (by decide) (by decide) (Or.inr (by decide))
  exact ⟨h1.1, h1.2, h3.1, h3.2, h.2.2.2.2 (by decide)⟩

/-- Claim C3 counterexample: "pizza bread" contains the high-sodium keyword
"pizza", yet the medium bucket runs afterwards and overwrites the estimate,
so the sodium estimate is 350 — not the high-sodium 600 — and the item
counts as DASH-compliant. -/
theorem c3_high_keyword_overridden_cex :
    anyKeyword high_sodium_foods "pizza bread" = true
    ∧ (analyze_food_hypertension_static "pizza bread" "1 serving").sodium_mg
        = 350
    ∧ (analyze_food_hypertension_static "pizza bread" "1 serving").dash_compliant
        = true := by decide

/-- Claim C3 as amended: the buckets are checked high, then medium, then
low, but each later loop overwrites the earlier estimate, so the LAST
matching bucket wins (low over medium over high); the high estimate of 600
is used only when no medium or low keyword also matches; and the result is
DASH-compliant exactly when `sodium_mg < 400`. -/
theorem c3_bucket_priority_amended (desc qty : String) :
    (anyKeyword low_sodium_foods desc = true → sodiumEstimate desc = 100)
    ∧ (anyKeyword low_sodium_foods desc = false →
        anyKeyword medium_sodium_foods desc = true →
        sodiumEstimate desc = 350)
    ∧ (anyKeyword low_sodium_foods desc = false →
        anyKeyword medium_sodium_foods desc = false →
        anyKeyword high_sodium_foods desc = true →
        sodiumEstimate desc = 600)
    ∧ (anyKeyword low_sodium_foods desc = false →
        anyKeyword medium_sodium_foods desc = false →
        anyKeyword high_sodium_foods desc = false →
        sodiumEstimate desc = 200)
    ∧ (analyze_food_hypertension_static desc qty).sodium_mg
        = pyInt (sodiumEstimate (pyLower desc) * sodiumMultiplier qty)
    ∧ ((analyze_food_hypertension_static desc qty).dash_compliant = true
        ↔ (analyze_food_hypertension_static desc qty).sodium_mg < 400) := by
  refine ⟨?_, ?_, ?_, ?_, rfl, ?_⟩
  · intro h; simp [sodiumEstimate, h]
  · intro h1 h2; simp [sodiumEstimate, h1, h2]
  · intro h1 h2 h3; simp [sodiumEstimate, h1, h2, h3]
  · intro h1 h2 h3; simp [sodiumEstimate, h1, h2, h3]
  · simp [analyze_food_hypertension_static]

/-- Witness for the amended C3 at ("pizza bread", "1 serving"): the medium
bucket wins over the high one, sodium 350, DASH-compliant. -/
theorem c3_witness :
    anyKeyword low_sodium_foods "pizza bread" = false
    ∧ anyKeyword medium_sodium_foods "pizza bread" = true
    ∧ sodiumEstimate "pizza bread" = 350
    ∧ ((analyze_food_hypertension_static "pizza bread" "1 serving").dash_compliant
          = true
        ↔ (analyze_food_hypertension_static "pizza bread" "1 serving").sodium_mg
          < 400) :=
  ⟨by decide, by decide,
    (c3_bucket_priority_amended "pizza bread" "1 serving").2.1
      (by decide) (by decide),
    (c3_bucket_priority_amended "pizza bread" "1 serving").2.2.2.2.2⟩

/-- Claim C6 (code bug): the match loops multiply every nutrition key by
the quantity multiplier — the glycemic index included — so one food at
"2 servings" reports twice its GI (146 for rice, an impossible GI value),
while the claim, the no-match default (a flat `gi = 50`) and the GI scale
of the code's own thresholds all treat GI as per-food and unscaled.  The
averaging itself is as claimed: "rice and dal" at "1 serving" sums the
macros and averages GI to (73+30)/2 = 51.5. -/
theorem c6_gi_scaled_by_quantity_multiplier :
    (analyzeFoodCore "rice and dal" "1 serving").1 = ["rice", "dal"]
    ∧ (analyzeFoodCore "rice and dal" "1 serving").2.gi = 103 / 2
    ∧ (analyze_food "rice and dal" "1 serving").nutrition.calories = 246
    ∧ (analyze_food "rice and dal" "1 serving").nutrition.carbohydrates_g = 48
    ∧ (analyze_food "rice" "1 serving").nutrition.glycemic_index = 73
    ∧ (analyze_food "rice" "2 servings").nutrition.glycemic_index = 146 := by
  decide

/-- Claim C7: for any non-empty activity-log list, the exercise score uses
the fixed 150-minute target, `percentage = min 100 (total/150*100)`, and
the four tiers at 100/75/50 percent map to Excellent-100 / Good-80 /
Fair-60 / Needs-Improvement-40; 150 total minutes is exactly Excellent and
149 falls in the Good tier; the Strava variant computes the same
percentage of the combined total. -/
theorem c7_exercise_consistency_tiers (logs : List ℚ) (sMin : ℚ)
    (h : logs ≠ []) :
    (calculate_exercise_consistency logs).percentage
      = min 100 (logs.sum / 150 * 100)
    ∧ (100 ≤ (calculate_exercise_consistency logs).percentage →
        (calculate_exercise_consistency logs).rating = "Excellent"
        ∧ (calculate_exercise_consistency logs).score = 100)
    ∧ (75 ≤ (calculate_exercise_consistency logs).percentage →
        (calculate_exercise_consistency logs).percentage < 100 →
        (calculate_exercise_consistency logs).rating = "Good"
        ∧ (calculate_exercise_consistency logs).score = 80)
    ∧ (50 ≤ (calculate_exercise_consistency logs).percentage →
        (calculate_exercise_consistency logs).percentage < 75 →
        (calculate_exercise_consistency logs).rating = "Fair"
        ∧ (calculate_exercise_consistency logs).score = 60)
    ∧ ((calculate_exercise_consistency logs).percentage < 50 →
        (calculate_exercise_consistency logs).rating = "Needs Improvement"
        ∧ (calculate_exercise_consistency logs).score = 40)
    ∧ (logs.sum = 150 →
        (calculate_exercise_consistency logs).rating = "Excellent"
        ∧ (calculate_exercise_consistency logs).score = 100)
    ∧ (logs.sum = 149 →
        (calculate_exercise_consistency logs).rating = "Good"
        ∧ (calculate_exercise_consistency logs).score = 80)
    ∧ (calculate_exercise_consistency_with_strava logs sMin).percentage
        = min 100 ((logs.sum + sMin) / 150 * 100) := by
  have hres : calculate_exercise_consistency logs
      = ⟨(exerciseTier (min 100 (logs.sum / 150 * 100))).2,
          (exerciseTier (min 100 (logs.sum / 150 * 100))).1,
          logs.sum, min 100 (logs.sum / 150 * 100)⟩ := by
    simp [calculate_exercise_consistency, h]
  rw [hres]
  refine ⟨rfl, ?_, ?_, ?_, ?_, ?_, ?_, ?_⟩
  · intro hp; simp only [exerciseTier, if_pos hp]; constructor <;> trivial
  · intro hp hq
    simp only [exerciseTier, if_neg (not_le.mpr hq), if_pos hp]
    constructor <;> trivial
  · intro hp hq
    have h100 : ¬(100 ≤ min 100 (logs.sum / 150 * 100)) := by
      intro hx; exact absurd (lt_of_lt_of_le hq (by norm_num)) (not_lt.mpr hx)
    simp only [exerciseTier, if_neg h100, if_neg (not_le.mpr hq), if_pos hp]
    constructor <;> trivial
  · intro hp
    have h100 : ¬(100 ≤ min 100 (logs.sum / 150 * 100)) := by
      intro hx; exact absurd (lt_of_lt_of_le hp (by norm_num)) (not_lt.mpr hx)
    have h75 : ¬(75 ≤ min 100 (logs.sum / 150 * 100)) := by
      intro hx; exact absurd (lt_of_lt_of_le hp (by norm_num)) (not_lt.mpr hx)
    have h50 : ¬(50 ≤ min 100 (logs.sum / 150 * 100)) := not_le.mpr hp
    simp only [exerciseTier, if_neg h100, if_neg h75, if_neg h50]
    constructor <;> trivial
  · intro hsum
    have : min (100 : ℚ) (logs.sum / 150 * 100) = 100 := by
      rw [hsum]; norm_num
    rw [this]
    simp [exerciseTier]
  · intro hsum
    have heq : min (100 : ℚ) (logs.sum / 150 * 100) = 298 / 3 := by
      rw [hsum]
      rw [min_eq_right (by norm_num)]
      norm_num
    rw [heq]
    simp only [exerciseTier]
    rw [if_neg (by norm_num), if_pos (by norm_num)]
    constructor <;> trivial
  · simp [calculate_exercise_consistency_with_strava]

/-- Witness for C7 at the one-session list [150] (with 0 Strava minutes):
percentage exactly 100, rating Excellent, score 100. -/
theorem c7_witness :
    ([150] : List ℚ) ≠ []
    ∧ (calculate_exercise_consistency [150]).percentage
        = min 100 (([150] : List ℚ).sum / 150 * 100)
    ∧ (([150] : List ℚ).sum = 150 →
        (calculate_exercise_consistency [150]).rating = "Excellent"
        ∧ (calculate_exercise_consistency [150]).score = 100) :=
  ⟨by decide,
    (c7_exercise_consistency_tiers [150] 0 (by decide)).1,
    (c7_exercise_consistency_tiers [150] 0 (by decide)).2.2.2.2.2.1⟩

/-- Claim C9 counterexample: a single logged activity of -300 minutes
drives the exercise percentage to -200, outside [0, 100] — the code clamps
only from above. -/
theorem c9_negative_percentage_cex :
    (calculate_exercise_consistency [-300]).percentage = -200
    ∧ (calculate_exercise_consistency [-300]).percentage < 0 := by decide

/-- Claim C9 as amended: the count-based percentages (diet logging
consistency, medication adherence) always lie in [0, 100] and every
zero-denominator case yields its defined sentinel (0 for no food or
activity logs, 100 for no medications) instead of an error; the exercise
percentage is clamped above at 100, and is nonnegative only when the
logged minutes are — negative values drive it below 0. -/
theorem c9_percentages_amended (meals : ℕ) (meds : List String)
    (medLogsTaken : List Bool) (activity : List ℚ) :
    (0 ≤ dietConsistencyPct meals ∧ dietConsistencyPct meals ≤ 100)
    ∧ (0 ≤ (calculate_medication_adherence meds medLogsTaken).percentage
        ∧ (calculate_medication_adherence meds medLogsTaken).percentage ≤ 100)
    ∧ (calculate_exercise_consistency activity).percentage ≤ 100
    ∧ ((∀ v ∈ activity, 0 ≤ v) →
        0 ≤ (calculate_exercise_consistency activity).percentage)
    ∧ calculate_diet_quality [] = ⟨0, "No data", 0, 0, 0⟩
    ∧ (calculate_medication_adherence [] medLogsTaken).percentage = 100
    ∧ calculate_exercise_consistency [] = ⟨0, "No data", 0, 0⟩ := by
  have hmed : (calculate_medication_adherence meds medLogsTaken).percentage
      = (if meds = [] then 100
          else medAdherencePct meds.length (takenDoses medLogsTaken)) := by
    simp only [calculate_medication_adherence]
    split_ifs <;> rfl
  have hex : ∀ acts : List ℚ, (calculate_exercise_consistency acts).percentage
      = (if acts = [] then 0 else min 100 (acts.sum / 150 * 100)) := by
    intro acts
    simp only [calculate_exercise_consistency, exerciseTier]
    split_ifs <;> rfl
  refine ⟨⟨?_, ?_⟩, ?_, ?_, ?_, ?_, ?_, ?_⟩
  · exact le_min (by norm_num) (by positivity)
  · exact min_le_left _ _
  · rw [hmed]
    split_ifs with he
    · norm_num
    · exact ⟨(medAdherencePct_mem _ _).1, (medAdherencePct_mem _ _).2⟩
  · rw [hex]
    split_ifs with he
    · norm_num
    · exact min_le_left _ _
  · intro hv
    rw [hex]
    split_ifs with he
    · norm_num
    · refine le_min (by norm_num) ?_
      have hs : 0 ≤ activity.sum := List.sum_nonneg hv
      positivity
  · rfl
  · simp [calculate_medication_adherence]
  · rfl

/-- Witness for the amended C9 at 5 meals, one medication with one taken
dose, and a 30-minute activity list whose values are all nonnegative. -/
theorem c9_witness :
    (0 ≤ dietConsistencyPct 5 ∧ dietConsistencyPct 5 ≤ 100)
    ∧ (0 ≤ (calculate_medication_adherence ["amlodipine"] [true]).percentage
        ∧ (calculate_medication_adherence ["amlodipine"] [true]).percentage
            ≤ 100)
    ∧ 0 ≤ (calculate_exercise_consistency [30]).percentage :=
  ⟨(c9_percentages_amended 5 ["amlodipine"] [true] [30]).1,
    (c9_percentages_amended 5 ["amlodipine"] [true] [30]).2.1,
    (c9_percentages_amended 5 ["amlodipine"] [true] [30]).2.2.2.1
      (by decide)⟩
